import Mathlib

/-!
Shallow embedding of `stt.py`, a silence-gated dictation tool.

The recorder (`SpeechRecognizer.record_with_silence_detection`, lines 91-147)
accumulates audio blocks delivered by a callback and stops once the elapsed
time since the last above-threshold block exceeds a configured timeout.
Times and loudness values are modelled as rationals; a `Block` carries the
callback invocation time (`time.time()` at the moment the callback runs),
the loudness `np.linalg.norm(indata) / frames` computed by the callback,
and the sample data `indata`.  Printing and the external calls (the Groq
API request, `pyautogui.write`, `time.sleep`) are modelled as events.
-/

/-- Configuration of `SpeechRecognizer.__init__` (lines 27-34): the silence
threshold and the silence timeout.  The sample rate plays no role in the
stop decision and is omitted from the state machine. -/
structure Config where
  silence_threshold : ℚ
  silence_timeout : ℚ
deriving DecidableEq

/-- Default configuration from the source: threshold `0.004`, timeout `3.0`. -/
def defaultCfg : Config := ⟨1 / 250, 3⟩

/-- One audio block delivered to `audio_callback`: `time` is the value of
`time.time()` when the callback runs, `volume` is the computed
`np.linalg.norm(indata) / frames`, and `data` is `indata` as a flat list of
normalized float samples. -/
structure Block where
  time : ℚ
  volume : ℚ
  data : List ℚ
deriving DecidableEq

/-- Mutable state of a recording session: `self.recording`,
`self.audio_data`, the `last_sound_time` nonlocal, and the `peak_volume`
nonlocal of `record_with_silence_detection` (lines 92-95). -/
structure RecState where
  recording : Bool
  audio_data : List (List ℚ)
  last_sound_time : ℚ
  peak_volume : ℚ
deriving DecidableEq

/-- Initial state of `record_with_silence_detection` (lines 92-95):
recording on, empty buffer, `last_sound_time = time.time()` at session
start `t0`, peak volume `0`. -/
def initState (t0 : ℚ) : RecState :=
  ⟨true, [], t0, 0⟩

/-- The per-block callback `audio_callback` (lines 97-118): update the peak,
and while recording append the block, then either reset `last_sound_time`
on a loud block or stop when the silence timeout has elapsed. -/
def audio_callback (cfg : Config) (s : RecState) (b : Block) : RecState :=
  let peak := max s.peak_volume b.volume
  if s.recording then
    let audio := s.audio_data ++ [b.data]
    if cfg.silence_threshold < b.volume then
      ⟨true, audio, b.time, peak⟩
    else if cfg.silence_timeout < b.time - s.last_sound_time then
      ⟨false, audio, s.last_sound_time, peak⟩
    else
      ⟨true, audio, s.last_sound_time, peak⟩
  else
    { s with peak_volume := peak }

/-- Fold the callback over the stream of delivered blocks, in delivery
order.  Blocks arriving after `recording` has been cleared are ignored by
the callback itself (the `if self.recording` guard at line 110). -/
def runBlocks (cfg : Config) : RecState → List Block → RecState
  | s, [] => s
  | s, b :: bs => runBlocks cfg (audio_callback cfg s b) bs

/-- Outcome of the `sd.InputStream` context (lines 125-132): either the
stream delivers a list of blocks, or opening/reading it raises. -/
inductive StreamOutcome where
  | ok (blocks : List Block)
  | failed (errMsg : String)
deriving DecidableEq

/-- Messages printed by the program, one constructor per `print` site that
the modelled paths can reach. -/
inductive Msg where
  | listening
  | errorRecording (e : String)
  | recordingFinished (peak : ℚ)
  | lowAudioWarning
  | maxAmplitude (q : ℚ)
  | noAudioRecorded
  | transcribing
  | sendingToGroq
  | transcriptionError (e : String)
  | detailedGroqError (e : String)
  | transcriptionFailed
  | transcriptionIs (text : String)
  | typing (text : String)
deriving DecidableEq

/-- `record_with_silence_detection` (lines 91-147): returns the concatenated
buffer (`np.concatenate(self.audio_data)`) when any block was captured and
`None` otherwise, or `None` when the stream raised; the second component is
the list of messages printed.  The error message at line 131 is printed
only in debug mode. -/
def record_with_silence_detection (cfg : Config) (debug : Bool) (t0 : ℚ)
    (outcome : StreamOutcome) : Option (List ℚ) × List Msg :=
  match outcome with
  | StreamOutcome.failed e =>
      (none, Msg.listening :: (if debug then [Msg.errorRecording e] else []))
  | StreamOutcome.ok blocks =>
      let s := runBlocks cfg (initState t0) blocks
      let finishMsgs : List Msg :=
        if debug then
          Msg.recordingFinished s.peak_volume ::
            (if s.peak_volume < (1 / 250 : ℚ) then [Msg.lowAudioWarning] else [])
        else []
      if s.audio_data = [] then
        (none, Msg.listening :: finishMsgs)
      else
        let audio := s.audio_data.flatten
        (some audio,
          Msg.listening :: finishMsgs ++
            (if debug then [Msg.maxAmplitude (audio.foldr (fun x m => max |x| m) 0)]
             else []))

/-- Truncation toward zero of a rational, the semantics of
`numpy.ndarray.astype` to an integer dtype. -/
def truncTowardZero (q : ℚ) : ℤ :=
  if 0 ≤ q then ⌊q⌋ else ⌈q⌉

/-- The sample conversion `(audio_data * 32767).astype(np.int16)` applied
to one sample, used verbatim at line 157 (`transcribe_with_groq`) and at
line 192 (`save_debug_audio`). -/
def int16OfSample (x : ℚ) : ℤ :=
  truncTowardZero (x * 32767)

/-- Decoding a 16-bit PCM sample back to a normalized float: divide by the
same scale `32767`. -/
def sampleOfInt16 (n : ℤ) : ℚ :=
  (n : ℚ) / 32767

/-- The 16-bit payload written by `wf.writeframes` (lines 157 and 192). -/
def encodePCM16 (buf : List ℚ) : List ℤ :=
  buf.map int16OfSample

/-- Decode a 16-bit PCM payload back to normalized floats. -/
def decodePCM16 (l : List ℤ) : List ℚ :=
  l.map sampleOfInt16

/-- Observable actions of the orchestrator: printed messages, the Groq API
request carrying its encoded payload (lines 170-173), the debug WAV write
(line 247 via `save_debug_audio`), and the two effects of `type_text`
(lines 202 and 205). -/
inductive Event where
  | msg (m : Msg)
  | groqCall (payload : List ℤ)
  | saveDebug (payload : List ℤ)
  | sleepDelay (d : ℚ)
  | typeCall (text : String)
deriving DecidableEq

/-- Whether an event is the Groq API request. -/
def isGroqCall : Event → Bool
  | Event.groqCall _ => true
  | _ => false

/-- `transcribe_with_groq` (lines 149-183): encode the buffer, print a
progress message, issue the API call, and on an exception print an error
(detailed in debug mode) and return `None`. -/
def transcribe_with_groq (debug : Bool) (audio : List ℚ)
    (api : Except String String) : Option String × List Event :=
  let payload := encodePCM16 audio
  let pre : List Event :=
    if debug then [Event.msg Msg.sendingToGroq] else [Event.msg Msg.transcribing]
  match api with
  | Except.ok text => (some text, pre ++ [Event.groqCall payload])
  | Except.error e =>
      (none,
        pre ++ [Event.groqCall payload,
          Event.msg (if debug then Msg.detailedGroqError e else Msg.transcriptionError e)])

/-- `type_text` (lines 196-205): a falsy argument (`None` or the empty
string) returns immediately; otherwise sleep `0.3` seconds and type the
text verbatim. -/
def type_text : Option String → List Event
  | none => []
  | some text =>
      if text = "" then []
      else [Event.sleepDelay (3 / 10), Event.typeCall text]

/-- The `try` body of `main` (lines 241-261), given the result of
`record_with_silence_detection` and the behaviour of the API call: when the
buffer is present and nonempty, optionally save the debug WAV, transcribe,
and on truthy text either type it (not in `--test` mode) or just report it;
otherwise print `No audio recorded`. -/
def mainBody (test debug : Bool) (recResult : Option (List ℚ) × List Msg)
    (api : Except String String) : List Event :=
  let recEvents := recResult.snd.map Event.msg
  match recResult.fst with
  | none => recEvents ++ [Event.msg Msg.noAudioRecorded]
  | some audio =>
      if 0 < audio.length then
        (recEvents ++ (if debug then [Event.saveDebug (encodePCM16 audio)] else [])) ++
          (let t := transcribe_with_groq debug audio api
           t.snd ++
             (match t.fst with
              | none => [Event.msg Msg.transcriptionFailed]
              | some text =>
                  if text = "" then [Event.msg Msg.transcriptionFailed]
                  else
                    Event.msg (if debug then Msg.transcriptionIs text else Msg.typing text) ::
                      (if test then [] else type_text (some text))))
      else recEvents ++ [Event.msg Msg.noAudioRecorded]

/-- One dictation run of `main` (lines 241-261) over a given stream
outcome and API behaviour. -/
def mainRun (test debug : Bool) (cfg : Config) (t0 : ℚ) (outcome : StreamOutcome)
    (api : Except String String) : List Event :=
  mainBody test debug (record_with_silence_detection cfg debug t0 outcome) api


/-! ## Basic lemmas about the recorder state machine -/

lemma runBlocks_cons (cfg : Config) (s : RecState) (b : Block) (bs : List Block) :
    runBlocks cfg s (b :: bs) = runBlocks cfg (audio_callback cfg s b) bs := rfl

lemma runBlocks_append (cfg : Config) (l₁ l₂ : List Block) :
    ∀ s : RecState, runBlocks cfg s (l₁ ++ l₂) = runBlocks cfg (runBlocks cfg s l₁) l₂ := by
  induction l₁ with
  | nil => intro s; rfl
  | cons b bs ih => intro s; simp only [List.cons_append, runBlocks_cons, ih]

lemma audio_callback_loud (cfg : Config) (s : RecState) (b : Block)
    (hr : s.recording = true) (hv : cfg.silence_threshold < b.volume) :
    audio_callback cfg s b =
      ⟨true, s.audio_data ++ [b.data], b.time, max s.peak_volume b.volume⟩ := by
  simp [audio_callback, hr, hv]

lemma audio_callback_silent_keep (cfg : Config) (s : RecState) (b : Block)
    (hr : s.recording = true) (hv : b.volume ≤ cfg.silence_threshold)
    (ht : b.time - s.last_sound_time ≤ cfg.silence_timeout) :
    audio_callback cfg s b =
      ⟨true, s.audio_data ++ [b.data], s.last_sound_time, max s.peak_volume b.volume⟩ := by
  simp [audio_callback, hr, not_lt.2 hv, not_lt.2 ht]

lemma audio_callback_silent_stop (cfg : Config) (s : RecState) (b : Block)
    (hr : s.recording = true) (hv : b.volume ≤ cfg.silence_threshold)
    (ht : cfg.silence_timeout < b.time - s.last_sound_time) :
    audio_callback cfg s b =
      ⟨false, s.audio_data ++ [b.data], s.last_sound_time, max s.peak_volume b.volume⟩ := by
  simp [audio_callback, hr, not_lt.2 hv, ht]

/-- While recording, a run of blocks that are all silent and all within the
timeout of the fixed last-sound time `L` keeps the recorder recording,
leaves `last_sound_time` at `L`, and appends exactly the blocks' data. -/
lemma runBlocks_silent_active (cfg : Config) (L : ℚ) :
    ∀ (l : List Block) (s : RecState), s.recording = true → s.last_sound_time = L →
      (∀ b ∈ l, b.volume ≤ cfg.silence_threshold) →
      (∀ b ∈ l, b.time - L ≤ cfg.silence_timeout) →
      (runBlocks cfg s l).recording = true ∧
      (runBlocks cfg s l).last_sound_time = L ∧
      (runBlocks cfg s l).audio_data = s.audio_data ++ l.map Block.data := by
  intro l
  induction l with
  | nil => intro s hr hl _ _; exact ⟨hr, hl, by simp [runBlocks]⟩
  | cons b bs ih =>
      intro s hr hl hv ht
      have hv1 : b.volume ≤ cfg.silence_threshold := hv b (List.mem_cons_self b bs)
      have ht1 : b.time - s.last_sound_time ≤ cfg.silence_timeout := by
        rw [hl]; exact ht b (List.mem_cons_self b bs)
      rw [runBlocks_cons, audio_callback_silent_keep cfg s b hr hv1 ht1]
      obtain ⟨h1, h2, h3⟩ := ih ⟨true, s.audio_data ++ [b.data], s.last_sound_time,
          max s.peak_volume b.volume⟩ rfl hl
        (fun c hc => hv c (List.mem_cons_of_mem b hc))
        (fun c hc => ht c (List.mem_cons_of_mem b hc))
      refine ⟨h1, h2, ?_⟩
      rw [h3]; simp

/-- The audio buffer always extends: each step appends the block's data
while recording and leaves the buffer untouched otherwise. -/
lemma audio_callback_audio_data (cfg : Config) (s : RecState) (b : Block) :
    (audio_callback cfg s b).audio_data =
      s.audio_data ++ (if s.recording then [b.data] else []) := by
  by_cases hr : s.recording
  · simp only [audio_callback, hr, if_true]
    split_ifs <;> simp
  · simp [audio_callback, hr]

lemma runBlocks_audio_extends (cfg : Config) :
    ∀ (l : List Block) (s : RecState),
      ∃ t, (runBlocks cfg s l).audio_data = s.audio_data ++ t := by
  intro l
  induction l with
  | nil => intro s; exact ⟨[], by simp [runBlocks]⟩
  | cons b bs ih =>
      intro s
      obtain ⟨t, h⟩ := ih (audio_callback cfg s b)
      refine ⟨(if s.recording then [b.data] else []) ++ t, ?_⟩
      rw [runBlocks_cons, h, audio_callback_audio_data]
      simp

/-! ## C1: the stop clock restarts at the last loud block -/

/-- C1: in the Recording state, on a stream with one above-threshold block
followed only by at-or-below-threshold blocks, the recorder transitions to
Stopped once the timeout has elapsed since the loud block's timestamp (it
is still recording through every later block within the timeout of the
loud block, regardless of the session start time, and stops at the first
below-threshold block past that timeout); a loud block resets
`last_sound_time` to the block's current time, and a loud block never
triggers the stop comparison. -/
theorem stop_timeout_counts_from_last_loud_block (cfg : Config) (t0 : ℚ)
    (loudB stopB : Block) (pre : List Block)
    (hloud : cfg.silence_threshold < loudB.volume)
    (hpreV : ∀ b ∈ pre, b.volume ≤ cfg.silence_threshold)
    (hpreT : ∀ b ∈ pre, b.time - loudB.time ≤ cfg.silence_timeout)
    (hstopV : stopB.volume ≤ cfg.silence_threshold)
    (hstopT : cfg.silence_timeout < stopB.time - loudB.time) :
    (audio_callback cfg (initState t0) loudB).last_sound_time = loudB.time ∧
    (runBlocks cfg (initState t0) (loudB :: pre)).recording = true ∧
    (runBlocks cfg (initState t0) ((loudB :: pre) ++ [stopB])).recording = false ∧
    (∀ (s : RecState) (b : Block), s.recording = true → cfg.silence_threshold < b.volume →
      (audio_callback cfg s b).recording = true) := by
  have hstep : audio_callback cfg (initState t0) loudB =
      ⟨true, [loudB.data], loudB.time, max 0 loudB.volume⟩ := by
    rw [audio_callback_loud cfg (initState t0) loudB rfl hloud]
    simp [initState]
  obtain ⟨h1, h2, h3⟩ := runBlocks_silent_active cfg loudB.time pre
    ⟨true, [loudB.data], loudB.time, max 0 loudB.volume⟩ rfl rfl hpreV hpreT
  have hrunPre : runBlocks cfg (initState t0) (loudB :: pre) =
      runBlocks cfg ⟨true, [loudB.data], loudB.time, max 0 loudB.volume⟩ pre := by
    rw [runBlocks_cons, hstep]
  refine ⟨by rw [hstep], by rw [hrunPre]; exact h1, ?_, ?_⟩
  · rw [runBlocks_append, hrunPre]
    set sPre := runBlocks cfg ⟨true, [loudB.data], loudB.time, max 0 loudB.volume⟩ pre
    have hstop : audio_callback cfg sPre stopB =
        ⟨false, sPre.audio_data ++ [stopB.data], sPre.last_sound_time,
          max sPre.peak_volume stopB.volume⟩ :=
      audio_callback_silent_stop cfg sPre stopB h1 hstopV (by rw [h2]; exact hstopT)
    show (runBlocks cfg (audio_callback cfg sPre stopB) []).recording = false
    rw [runBlocks, hstop]
  · intro s b hr hv
    rw [audio_callback_loud cfg s b hr hv]

/-- Witness for C1 at concrete values: threshold `0.004`, timeout `3`,
session start `0`, loud block at time `10`, a silent block at time `12`
(well past the timeout counted from session start, still within it counted
from the loud block), and a silent block at time `14`. -/
theorem stop_timeout_counts_from_last_loud_block_witness :
    defaultCfg.silence_threshold < (1 : ℚ) ∧
    defaultCfg.silence_timeout < (14 : ℚ) - 10 ∧
    ((audio_callback defaultCfg (initState 0) ⟨10, 1, [1/2]⟩).last_sound_time = 10 ∧
     (runBlocks defaultCfg (initState 0)
        ((⟨10, 1, [1/2]⟩ : Block) :: [⟨12, 0, []⟩])).recording = true ∧
     (runBlocks defaultCfg (initState 0)
        (((⟨10, 1, [1/2]⟩ : Block) :: [⟨12, 0, []⟩]) ++ [⟨14, 0, []⟩])).recording = false) := by
  have h := stop_timeout_counts_from_last_loud_block defaultCfg 0 ⟨10, 1, [1/2]⟩ ⟨14, 0, []⟩
    [⟨12, 0, []⟩]
    (by norm_num [defaultCfg])
    (by intro b hb; rw [List.mem_singleton] at hb; subst hb; norm_num [defaultCfg])
    (by intro b hb; rw [List.mem_singleton] at hb; subst hb; norm_num [defaultCfg])
    (by norm_num [defaultCfg])
    (by norm_num [defaultCfg])
  exact ⟨by norm_num [defaultCfg], by norm_num [defaultCfg], h.1, h.2.1, h.2.2.1⟩

/-! ## C2: total silence stops one timeout after session start -/

/-- C2: when every delivered block is at or below the threshold, the
recorder is still recording at every block within the timeout of the
session start, transitions to Stopped at the first block past that
timeout, and the capture returns the accumulated (near-silent) buffer as a
normal `some` result. -/
theorem total_silence_stops_after_timeout_from_start (cfg : Config) (debug : Bool) (t0 : ℚ)
    (pre : List Block) (stopB : Block)
    (hpreV : ∀ b ∈ pre, b.volume ≤ cfg.silence_threshold)
    (hpreT : ∀ b ∈ pre, b.time - t0 ≤ cfg.silence_timeout)
    (hstopV : stopB.volume ≤ cfg.silence_threshold)
    (hstopT : cfg.silence_timeout < stopB.time - t0) :
    (runBlocks cfg (initState t0) pre).recording = true ∧
    (runBlocks cfg (initState t0) (pre ++ [stopB])).recording = false ∧
    (record_with_silence_detection cfg debug t0 (StreamOutcome.ok (pre ++ [stopB]))).fst =
      some ((pre ++ [stopB]).map Block.data).flatten := by
  obtain ⟨h1, h2, h3⟩ := runBlocks_silent_active cfg t0 pre (initState t0) rfl rfl hpreV hpreT
  set sPre := runBlocks cfg (initState t0) pre with hsPre
  have hstop : audio_callback cfg sPre stopB =
      ⟨false, sPre.audio_data ++ [stopB.data], sPre.last_sound_time,
        max sPre.peak_volume stopB.volume⟩ :=
    audio_callback_silent_stop cfg sPre stopB h1 hstopV (by rw [h2]; exact hstopT)
  have hrunAll : runBlocks cfg (initState t0) (pre ++ [stopB]) =
      audio_callback cfg sPre stopB := by
    rw [runBlocks_append]
    rfl
  have haudio : (runBlocks cfg (initState t0) (pre ++ [stopB])).audio_data =
      (pre ++ [stopB]).map Block.data := by
    rw [hrunAll, hstop]
    simp only [h3]
    simp [initState]
  refine ⟨h1, by rw [hrunAll, hstop], ?_⟩
  simp only [record_with_silence_detection]
  rw [haudio]
  have hne : (pre ++ [stopB]).map Block.data ≠ [] := by simp
  rw [if_neg hne]

/-- Witness for C2 at concrete values: a silent block at time `1`, a silent
block at time `4`, timeout `3` counted from session start `0`; the capture
returns the near-silent buffer. -/
theorem total_silence_stops_after_timeout_from_start_witness :
    defaultCfg.silence_timeout < (4 : ℚ) - 0 ∧
    (0 : ℚ) ≤ defaultCfg.silence_threshold ∧
    ((runBlocks defaultCfg (initState 0) [⟨1, 0, [1/1000]⟩]).recording = true ∧
     (runBlocks defaultCfg (initState 0)
        ([⟨1, 0, [1/1000]⟩] ++ [⟨4, 0, [0]⟩])).recording = false ∧
     (record_with_silence_detection defaultCfg false 0
        (StreamOutcome.ok ([⟨1, 0, [1/1000]⟩] ++ [⟨4, 0, [0]⟩]))).fst =
      some (([(⟨1, 0, [1/1000]⟩ : Block), ⟨4, 0, [0]⟩].map Block.data).flatten)) := by
  have h := total_silence_stops_after_timeout_from_start defaultCfg false 0
    [⟨1, 0, [1/1000]⟩] ⟨4, 0, [0]⟩
    (by intro b hb; rw [List.mem_singleton] at hb; subst hb; norm_num [defaultCfg])
    (by intro b hb; rw [List.mem_singleton] at hb; subst hb; norm_num [defaultCfg])
    (by norm_num [defaultCfg])
    (by norm_num [defaultCfg])
  exact ⟨by norm_num [defaultCfg], by norm_num [defaultCfg], h.1, h.2.1, h.2.2⟩

/-! ## C3: the buffer is append-only and the stop decision ignores it -/

/-- C3: while recording, each processed block is appended to the audio
buffer (nothing is removed or overwritten), over any stream the buffer of
the final state extends the starting buffer, and the value of the
`recording` flag after a step depends only on the previous flag, the
previous `last_sound_time`, and the incoming block -- never on the
accumulated buffer or the peak. -/
theorem audio_append_only_and_stop_ignores_buffer (cfg : Config) (s : RecState) (b : Block)
    (l : List Block) (hrec : s.recording = true) :
    (audio_callback cfg s b).audio_data = s.audio_data ++ [b.data] ∧
    (∃ t, (runBlocks cfg s l).audio_data = s.audio_data ++ t) ∧
    (∀ s₁ s₂ : RecState, s₁.recording = s₂.recording →
        s₁.last_sound_time = s₂.last_sound_time →
        (audio_callback cfg s₁ b).recording = (audio_callback cfg s₂ b).recording) := by
  refine ⟨by rw [audio_callback_audio_data, if_pos hrec],
    runBlocks_audio_extends cfg l s, ?_⟩
  intro s₁ s₂ hr hl
  simp only [audio_callback]
  rw [← hr, ← hl]
  by_cases h : s₁.recording = true
  · simp only [h, if_true]
    split_ifs <;> rfl
  · simp only [Bool.not_eq_true] at h
    simp [h, hr]

/-- Witness for C3 at a concrete recording state and block. -/
theorem audio_append_only_and_stop_ignores_buffer_witness :
    (⟨true, [[1]], 0, 1⟩ : RecState).recording = true ∧
    ((audio_callback defaultCfg ⟨true, [[1]], 0, 1⟩ ⟨1, 0, [2]⟩).audio_data =
        [[1]] ++ [[2]] ∧
     (∃ t, (runBlocks defaultCfg ⟨true, [[1]], 0, 1⟩ [⟨1, 0, [2]⟩]).audio_data =
        [[1]] ++ t)) := by
  have h := audio_append_only_and_stop_ignores_buffer defaultCfg ⟨true, [[1]], 0, 1⟩
    ⟨1, 0, [2]⟩ [⟨1, 0, [2]⟩] rfl
  exact ⟨rfl, h.1, h.2.1⟩

/-! ## Lemmas about truncation toward zero -/

lemma truncTowardZero_close (q : ℚ) : |q - (truncTowardZero q : ℚ)| < 1 := by
  unfold truncTowardZero
  split_ifs with h
  · rw [abs_of_nonneg (sub_nonneg.2 (Int.floor_le q))]
    have := Int.lt_floor_add_one q
    linarith
  · rw [abs_of_nonpos (sub_nonpos.2 (Int.le_ceil q))]
    have := Int.ceil_lt_add_one q
    linarith

lemma truncTowardZero_abs_le (q : ℚ) : |(truncTowardZero q : ℚ)| ≤ |q| := by
  unfold truncTowardZero
  split_ifs with h
  · rw [abs_of_nonneg h, abs_of_nonneg]
    · exact Int.floor_le q
    · exact_mod_cast Int.floor_nonneg.2 h
  · push_neg at h
    rw [abs_of_neg h, abs_of_nonpos]
    · exact neg_le_neg (Int.le_ceil q)
    · have hc : ⌈q⌉ ≤ (0 : ℤ) := Int.ceil_le.mpr (by exact_mod_cast h.le)
      exact_mod_cast hc

/-! ## C4: PCM16 round trip stays within one quantization step -/

lemma roundtrip_close (x : ℚ) (_h : |x| ≤ 1) :
    |x - sampleOfInt16 (int16OfSample x)| ≤ 1 / 32767 := by
  unfold sampleOfInt16 int16OfSample
  have h1 : x - (truncTowardZero (x * 32767) : ℚ) / 32767 =
      (x * 32767 - (truncTowardZero (x * 32767) : ℚ)) / 32767 := by ring
  rw [h1, abs_div, abs_of_pos (show (0 : ℚ) < 32767 by norm_num)]
  have h2 : |x * 32767 - (truncTowardZero (x * 32767) : ℚ)| ≤ 1 :=
    (truncTowardZero_close (x * 32767)).le
  gcongr

/-- C4: for every buffer of normalized samples in `[-1, 1]`, encoding with
the source's `(audio_data * 32767).astype(np.int16)` conversion and
decoding back by the same scale yields, pointwise, samples within the
quantization error `1 / 32767` of the originals. -/
theorem pcm16_roundtrip_quantization_error (buf : List ℚ)
    (h : ∀ x ∈ buf, |x| ≤ 1) :
    List.Forall₂ (fun x y => |x - y| ≤ 1 / 32767) buf (decodePCM16 (encodePCM16 buf)) := by
  induction buf with
  | nil => simp [decodePCM16, encodePCM16]
  | cons x xs ih =>
      simp only [decodePCM16, encodePCM16, List.map_cons]
      exact List.Forall₂.cons
        (roundtrip_close x (h x (List.mem_cons_self x xs)))
        (ih fun y hy => h y (List.mem_cons_of_mem x hy))

/-- Witness for C4 at a concrete buffer. -/
theorem pcm16_roundtrip_quantization_error_witness :
    (∀ x ∈ [(1 : ℚ) / 2, -(1 / 3), 0], |x| ≤ 1) ∧
    List.Forall₂ (fun x y => |x - y| ≤ 1 / 32767) [(1 : ℚ) / 2, -(1 / 3), 0]
      (decodePCM16 (encodePCM16 [(1 : ℚ) / 2, -(1 / 3), 0])) := by
  have hmem : ∀ x ∈ [(1 : ℚ) / 2, -(1 / 3), 0], |x| ≤ 1 := by
    intro x hx
    simp only [List.mem_cons, List.not_mem_nil, or_false] at hx
    rcases hx with rfl | rfl | rfl <;> rw [abs_le] <;> constructor <;> norm_num
  exact ⟨hmem, pcm16_roundtrip_quantization_error _ hmem⟩

/-! ## C9: the conversion truncates toward zero and never wraps -/

/-- C9: the float-to-int16 conversion used at lines 157 and 192 truncates
toward zero: for `|x| ≤ 1` the converted value keeps the magnitude of the
scaled sample (never increasing it), lands within one unit of it, and lies
inside the signed 16-bit range, so no in-range sample ever wraps; at
`x = 9/327670` (scaled value `0.9`) it yields `0` rather than the
round-to-nearest `1`, and at the negated input it yields `0` rather than
the floor `-1`. -/
theorem int16_conversion_truncates_toward_zero (x : ℚ) (h : |x| ≤ 1) :
    (-(2 ^ 15) ≤ int16OfSample x ∧ int16OfSample x < 2 ^ 15) ∧
    |(int16OfSample x : ℚ)| ≤ |x * 32767| ∧
    |x * 32767 - (int16OfSample x : ℚ)| < 1 ∧
    int16OfSample (9 / 327670) = 0 ∧ int16OfSample (-(9 / 327670)) = 0 := by
  have habs : |(int16OfSample x : ℚ)| ≤ |x * 32767| := truncTowardZero_abs_le (x * 32767)
  have hscale : |x * 32767| ≤ 32767 := by
    rw [abs_mul]
    calc |x| * |(32767 : ℚ)| ≤ 1 * |(32767 : ℚ)| := by
          apply mul_le_mul_of_nonneg_right h (abs_nonneg _)
      _ = 32767 := by norm_num
  have hb : |(int16OfSample x : ℚ)| ≤ 32767 := le_trans habs hscale
  rw [abs_le] at hb
  constructor
  · constructor
    · have : (-(32767 : ℚ)) ≤ (int16OfSample x : ℚ) := hb.1
      have h1 : (-32767 : ℤ) ≤ int16OfSample x := by exact_mod_cast this
      omega
    · have : ((int16OfSample x : ℚ)) ≤ 32767 := hb.2
      have h1 : int16OfSample x ≤ (32767 : ℤ) := by exact_mod_cast this
      omega
  refine ⟨habs, truncTowardZero_close (x * 32767), ?_, ?_⟩
  · show truncTowardZero (9 / 327670 * 32767) = 0
    have h9 : (9 : ℚ) / 327670 * 32767 = 9 / 10 := by norm_num
    rw [h9, truncTowardZero, if_pos (by norm_num)]
    norm_num
  · show truncTowardZero (-(9 / 327670) * 32767) = 0
    have h9 : (-(9 : ℚ) / 327670) * 32767 = -(9 / 10) := by norm_num
    rw [show (-((9 : ℚ) / 327670)) * 32767 = (-(9 : ℚ) / 327670) * 32767 by ring, h9,
      truncTowardZero, if_neg (by norm_num)]
    norm_num

/-- Witness for C9 at a concrete sample. -/
theorem int16_conversion_truncates_toward_zero_witness :
    |(-(1 : ℚ))| ≤ 1 ∧
    ((-(2 ^ 15) ≤ int16OfSample (-(1 : ℚ)) ∧ int16OfSample (-(1 : ℚ)) < 2 ^ 15) ∧
     |(int16OfSample (-(1 : ℚ)) : ℚ)| ≤ |(-(1 : ℚ)) * 32767| ∧
     |(-(1 : ℚ)) * 32767 - (int16OfSample (-(1 : ℚ)) : ℚ)| < 1 ∧
     int16OfSample (9 / 327670) = 0 ∧ int16OfSample (-(9 / 327670)) = 0) :=
  ⟨by norm_num, int16_conversion_truncates_toward_zero (-(1 : ℚ)) (by norm_num)⟩

/-! ## C8: test mode never injects text -/

/-- C8: with the `--test` flag set, no `pyautogui.write` call and no
pre-injection sleep ever occurs, whatever the stream outcome, the API
behaviour, or the debug flag -- even when capture and transcription both
succeed with nonempty text. -/
theorem test_mode_never_types (debug : Bool) (cfg : Config) (t0 : ℚ)
    (outcome : StreamOutcome) (api : Except String String) (s : String) (d : ℚ) :
    Event.typeCall s ∉ mainRun true debug cfg t0 outcome api ∧
    Event.sleepDelay d ∉ mainRun true debug cfg t0 outcome api := by
  rw [mainRun]
  obtain ⟨a?, msgs⟩ := record_with_silence_detection cfg debug t0 outcome
  refine ⟨?_, ?_⟩ <;>
  · cases a? with
    | none => simp [mainBody]
    | some audio =>
        cases api with
        | ok text =>
            by_cases hlen : 0 < audio.length
            · by_cases htext : text = "" <;>
                cases debug <;>
                simp [mainBody, transcribe_with_groq, hlen, htext]
            · simp [mainBody, hlen]
        | error e =>
            by_cases hlen : 0 < audio.length
            · cases debug <;> simp [mainBody, transcribe_with_groq, hlen]
            · simp [mainBody, hlen]

/-- Witness for C8 at a concrete run in which capture and transcription
both succeed with nonempty text. -/
theorem test_mode_never_types_witness :
    Event.typeCall "hello" ∉
      mainRun true false defaultCfg 0 (StreamOutcome.ok []) (Except.ok "hello") ∧
    Event.sleepDelay (3 / 10) ∉
      mainRun true false defaultCfg 0 (StreamOutcome.ok []) (Except.ok "hello") :=
  ⟨(test_mode_never_types false defaultCfg 0 (StreamOutcome.ok [])
      (Except.ok "hello") "hello" (3 / 10)).1,
   (test_mode_never_types false defaultCfg 0 (StreamOutcome.ok [])
      (Except.ok "hello") "hello" (3 / 10)).2⟩

/-! ## Counting Groq calls -/

lemma countP_isGroqCall_msgs (l : List Msg) : (l.map Event.msg).countP isGroqCall = 0 := by
  induction l with
  | nil => rfl
  | cons m ms ih => simp [List.countP_cons, isGroqCall, ih]

lemma countP_isGroqCall_comp_msg (l : List Msg) :
    l.countP (isGroqCall ∘ Event.msg) = 0 := by
  induction l with
  | nil => rfl
  | cons m ms ih => simp [List.countP_cons, isGroqCall, Function.comp, ih]

/-! ## C7: empty capture skips transcription -/

/-- C7: whenever capture yields no audio (the recorder returned `None` or
an empty buffer), the orchestrator reports `No audio recorded` and the
Groq request is never built or sent. -/
theorem empty_capture_skips_transcription (test debug : Bool) (cfg : Config) (t0 : ℚ)
    (outcome : StreamOutcome) (api : Except String String)
    (h : (record_with_silence_detection cfg debug t0 outcome).fst = none ∨
         (record_with_silence_detection cfg debug t0 outcome).fst = some []) :
    Event.msg Msg.noAudioRecorded ∈ mainRun test debug cfg t0 outcome api ∧
    ∀ p, Event.groqCall p ∉ mainRun test debug cfg t0 outcome api := by
  rcases h with h | h
  · exact ⟨by simp [mainRun, mainBody, h], fun p => by simp [mainRun, mainBody, h]⟩
  · exact ⟨by simp [mainRun, mainBody, h], fun p => by simp [mainRun, mainBody, h]⟩

/-- Witness for C7: a stream that delivers no blocks at all. -/
theorem empty_capture_skips_transcription_witness :
    Event.msg Msg.noAudioRecorded ∈
      mainRun false false defaultCfg 0 (StreamOutcome.ok []) (Except.ok "hi") ∧
    Event.groqCall [] ∉
      mainRun false false defaultCfg 0 (StreamOutcome.ok []) (Except.ok "hi") := by
  have h := empty_capture_skips_transcription false false defaultCfg 0
    (StreamOutcome.ok []) (Except.ok "hi") (Or.inl rfl)
  exact ⟨h.1, h.2 []⟩

/-! ## C6: a transcription failure is reported, not retried, not typed -/

/-- C6: when the API call raises, the transcription step returns no text,
the injector is never invoked, at most one Groq request is ever made (no
retry), and whenever the request was actually made the orchestrator
reports `Transcription failed`. -/
theorem transcription_error_reported_no_retry_no_type (test debug : Bool) (cfg : Config)
    (t0 : ℚ) (outcome : StreamOutcome) (e : String) :
    (∀ audio, (transcribe_with_groq debug audio (Except.error e)).fst = none) ∧
    (∀ s, Event.typeCall s ∉ mainRun test debug cfg t0 outcome (Except.error e)) ∧
    (mainRun test debug cfg t0 outcome (Except.error e)).countP isGroqCall ≤ 1 ∧
    ((∃ p, Event.groqCall p ∈ mainRun test debug cfg t0 outcome (Except.error e)) →
      Event.msg Msg.transcriptionFailed ∈ mainRun test debug cfg t0 outcome (Except.error e)) := by
  refine ⟨fun audio => by simp [transcribe_with_groq], ?_, ?_, ?_⟩
  all_goals
    rcases hr : (record_with_silence_detection cfg debug t0 outcome).fst with _ | audio
  · intro s
    simp [mainRun, mainBody, hr]
  · intro s
    by_cases hlen : 0 < audio.length
    · cases debug <;> simp [mainRun, mainBody, hr, hlen, transcribe_with_groq]
    · simp [mainRun, mainBody, hr, hlen]
  · simp [mainRun, mainBody, hr, List.countP_append, List.countP_cons,
      isGroqCall, countP_isGroqCall_msgs, countP_isGroqCall_comp_msg]
  · by_cases hlen : 0 < audio.length
    · cases debug <;>
        simp [mainRun, mainBody, hr, hlen, transcribe_with_groq, List.countP_append,
          List.countP_cons, isGroqCall, countP_isGroqCall_msgs, countP_isGroqCall_comp_msg]
    · simp [mainRun, mainBody, hr, hlen, List.countP_append, List.countP_cons,
        isGroqCall, countP_isGroqCall_msgs, countP_isGroqCall_comp_msg]
  · rintro ⟨p, hp⟩
    simp [mainRun, mainBody, hr] at hp
  · by_cases hlen : 0 < audio.length
    · intro _
      cases debug <;> simp [mainRun, mainBody, hr, hlen, transcribe_with_groq]
    · rintro ⟨p, hp⟩
      simp [mainRun, mainBody, hr, hlen] at hp

/-- Witness for C6: a one-block capture followed by an API failure; the
request was made, the failure is reported. -/
theorem transcription_error_reported_no_retry_no_type_witness :
    Event.msg Msg.transcriptionFailed ∈
      mainRun false false defaultCfg 0 (StreamOutcome.ok [⟨0, 1, [0]⟩])
        (Except.error "connection reset") := by
  have h := transcription_error_reported_no_retry_no_type false false defaultCfg 0
    (StreamOutcome.ok [⟨0, 1, [0]⟩]) "connection reset"
  refine h.2.2.2 ⟨encodePCM16 [0], ?_⟩
  have hfst : (record_with_silence_detection defaultCfg false 0
      (StreamOutcome.ok [⟨0, 1, [0]⟩])).fst = some [0] := by
    norm_num [record_with_silence_detection, runBlocks, audio_callback, initState, defaultCfg]
  simp [mainRun, mainBody, hfst, transcribe_with_groq]

/-! ## C5: capture failure handling -/

/-- C5 counterexample: with debug off and the stream failing to open, the
whole run prints only `Listening...` and `No audio recorded` -- the
underlying capture error is never surfaced, contradicting the claim that
the failure is reported regardless of debug mode. -/
theorem capture_error_swallowed_without_debug :
    mainRun false false defaultCfg 0 (StreamOutcome.failed "device busy")
        (Except.ok "hi") =
      [Event.msg Msg.listening, Event.msg Msg.noAudioRecorded] ∧
    Event.msg (Msg.errorRecording "device busy") ∉
      mainRun false false defaultCfg 0 (StreamOutcome.failed "device busy")
        (Except.ok "hi") := by
  have h : mainRun false false defaultCfg 0 (StreamOutcome.failed "device busy")
      (Except.ok "hi") = [Event.msg Msg.listening, Event.msg Msg.noAudioRecorded] := rfl
  refine ⟨h, ?_⟩
  rw [h]
  simp

/-- C5 (amended): when the stream fails to open or errors mid-capture, the
session is always discarded (no buffer is returned), the orchestrator
reports `No audio recorded`, and no transcription is attempted; the error
message itself, however, is printed exactly when debug mode is on -- with
debug off it is swallowed. -/
theorem capture_error_discarded_reported_only_in_debug (test debug : Bool)
    (cfg : Config) (t0 : ℚ) (e : String) (api : Except String String) :
    (record_with_silence_detection cfg debug t0 (StreamOutcome.failed e)).fst = none ∧
    (record_with_silence_detection cfg debug t0 (StreamOutcome.failed e)).snd =
      Msg.listening :: (if debug then [Msg.errorRecording e] else []) ∧
    Event.msg Msg.noAudioRecorded ∈ mainRun test debug cfg t0 (StreamOutcome.failed e) api ∧
    (∀ p, Event.groqCall p ∉ mainRun test debug cfg t0 (StreamOutcome.failed e) api) ∧
    (Event.msg (Msg.errorRecording e) ∈ mainRun test debug cfg t0 (StreamOutcome.failed e) api
      ↔ debug = true) := by
  refine ⟨rfl, rfl, ?_, ?_, ?_⟩
  · cases debug <;> simp [mainRun, mainBody, record_with_silence_detection]
  · intro p
    cases debug <;> simp [mainRun, mainBody, record_with_silence_detection]
  · cases debug <;> simp [mainRun, mainBody, record_with_silence_detection]

/-- Witness for C5 (amended) at concrete values, in debug mode, where the
error is reported. -/
theorem capture_error_discarded_reported_only_in_debug_witness :
    (record_with_silence_detection defaultCfg true 0 (StreamOutcome.failed "boom")).fst
        = none ∧
    Event.msg Msg.noAudioRecorded ∈
      mainRun false true defaultCfg 0 (StreamOutcome.failed "boom") (Except.ok "hi") ∧
    Event.groqCall [] ∉
      mainRun false true defaultCfg 0 (StreamOutcome.failed "boom") (Except.ok "hi") ∧
    Event.msg (Msg.errorRecording "boom") ∈
      mainRun false true defaultCfg 0 (StreamOutcome.failed "boom") (Except.ok "hi") := by
  have h := capture_error_discarded_reported_only_in_debug false true defaultCfg 0
    "boom" (Except.ok "hi")
  exact ⟨h.1, h.2.2.1, h.2.2.2.1 [], h.2.2.2.2.mpr rfl⟩

/-! ## C10: the text injector -/

/-- C10: `type_text` with a falsy argument (`None` or the empty string) is
a no-op -- no sleep, no keystrokes; with any nonempty string it sleeps the
fixed `0.3` second delay and then types exactly that string. -/
theorem type_text_falsy_noop_nonempty_types (s : String) (h : s ≠ "") :
    type_text none = [] ∧ type_text (some "") = [] ∧
    type_text (some s) = [Event.sleepDelay (3 / 10), Event.typeCall s] := by
  refine ⟨rfl, rfl, ?_⟩
  simp [type_text, h]

/-- Witness for C10 at the string `"hello world"`. -/
theorem type_text_falsy_noop_nonempty_types_witness :
    ("hello world" : String) ≠ "" ∧
    (type_text none = [] ∧ type_text (some "") = [] ∧
     type_text (some "hello world") =
       [Event.sleepDelay (3 / 10), Event.typeCall "hello world"]) :=
  ⟨by simp, type_text_falsy_noop_nonempty_types "hello world" (by simp)⟩
